import Mathlib

/-
  Verification of the exception-handling and thread-job core of the
  datatable repository (utils/exceptions.cc, parallel/thread_job.h,
  parallel/thread_job.cc).

  The embedding models CPython's ambient error state (the per-thread
  pending-exception triple manipulated through PyErr_Occurred /
  PyErr_Fetch / PyErr_Restore / PyErr_SetString) as an explicit state
  value threaded through the functions.  C++ byte strings are modelled
  as lists of byte values (Nat, each < 256 where relevant).
-/

set_option autoImplicit false

namespace Datatable

/-- A Python object handle (`PyObject*`).  `null` is the NULL pointer;
exception-class objects, string objects and other objects are kept
distinguishable so that handle comparisons in the source are faithful. -/
inductive PyObj where
  | null
  | exc (id : Nat)
  | str (s : List Nat)
  | obj (id : Nat)
deriving DecidableEq, Repr

/-- The ambient pending-error state of the embedding runtime: the
`(type, value, traceback)` triple held in the thread state.  Nothing is
pending exactly when the type handle is NULL. -/
structure PyState where
  ptype : PyObj
  pvalue : PyObj
  ptraceback : PyObj
deriving DecidableEq, Repr

/-- The empty ambient state: no pending error. -/
def PyState.empty : PyState := ⟨PyObj.null, PyObj.null, PyObj.null⟩

/-- CPython collaborator (spec section 6): reports whether an error is
currently pending, by testing the type handle against NULL. -/
def PyErr_Occurred (s : PyState) : Bool := s.ptype != PyObj.null

/-- CPython collaborator (spec section 6): takes ownership of the pending
triple and clears the ambient state. -/
def PyErr_Fetch (s : PyState) : (PyObj × PyObj × PyObj) × PyState :=
  ((s.ptype, s.pvalue, s.ptraceback), PyState.empty)

/-- CPython collaborator (spec section 6): reinstalls a triple as the
ambient pending error. -/
def PyErr_Restore (t v tb : PyObj) (_s : PyState) : PyState := ⟨t, v, tb⟩

/-- CPython collaborator: installs class `cls` with message `msg` as the
pending error (the host error-representation sink of spec section 6). -/
def PyErr_SetString (cls : PyObj) (msg : List Nat) : PyState :=
  ⟨cls, PyObj.str msg, PyObj.null⟩

/-- The designated builtin exception-class handles used by the sources.
Distinct ids keep the handles pairwise different, as the distinct global
objects are in CPython. -/
def PyExc_Exception : PyObj := PyObj.exc 0

def PyExc_KeyboardInterrupt : PyObj := PyObj.exc 1

def PyExc_AssertionError : PyObj := PyObj.exc 2

def PyExc_RuntimeError : PyObj := PyObj.exc 3

def PyExc_FutureWarning : PyObj := PyObj.exc 4

/-- Modelled from the spec: the progress manager
(`dt::progress::manager`, whose header is not among the sources) carries
a status; `set_status_cancelled()` is the cancellation marker's
mark-cancelled call (spec section 6).  We model only the flag that the
status has been set to cancelled. -/
def set_status_cancelled (_cancelled : Bool) : Bool := true

/-- `Error` (utils/exceptions.cc): an exception value holding the target
exception class `pycls_` and an accumulating message stream `error`.
Reading the stream (`error.str()`) may itself throw (e.g. on allocation
failure); `msgResult` is `Except w s`: `Except.ok s` when rendering
yields the byte string `s`, `Except.error w` when rendering throws a
C++ exception whose `what()` message is `w`. -/
structure Error where
  pycls_ : PyObj
  msgResult : Except (List Nat) (List Nat)
deriving Repr

/-- `Error::is_keyboard_interrupt()`: the base class always answers
false. -/
def Error.is_keyboard_interrupt (_e : Error) : Bool := false

/-- `Error::to_python()`: renders the message inside a try block and
installs `(pycls_, message)` as the pending error; if rendering throws,
the catch block installs `PyExc_RuntimeError` with the caught
exception's message instead.  The function is `noexcept`: it always
produces a state. -/
def Error.to_python (e : Error) : PyState :=
  match e.msgResult with
  | Except.ok errstr => PyErr_SetString e.pycls_ errstr
  | Except.error w => PyErr_SetString PyExc_RuntimeError w

/-- The offending characters of `escape_backticks`: backtick (0x60) and
backslash (0x5c). -/
def isOffending (c : Nat) : Bool := c == 0x60 || c == 0x5c

/-- The per-character body of the second loop of `escape_backticks`:
each backtick or backslash is prepended with a backslash, every other
byte is appended unchanged. -/
def escapeEach : List Nat → List Nat
  | [] => []
  | c :: rest => (if isOffending c then [0x5c, c] else [c]) ++ escapeEach rest

/-- `escape_backticks` (utils/exceptions.cc): counts the backticks and
backslashes; when none occur the input is returned as is, otherwise a
new string is built with each offending character prepended by a
backslash. -/
def escape_backticks (str : List Nat) : List Nat :=
  let count := str.countP isOffending
  if count == 0 then str
  else escapeEach str

/-- The hex-digit rendering of `Error::operator<<(char)`:
`(d <= 9 ? '0' : 'a' - 10) + d`, i.e. lowercase hex. -/
def hexDigit (d : Nat) : Nat := (if d ≤ 9 then 48 else 87) + d

/-- The byte sequence that `Error::operator<<(char)` appends to the
message stream for input byte `c` (`uc` is `static_cast<uint8_t>(c)`).
Offending bytes (below 0x20, at or above 0x80, backtick, backslash) get
a leading backslash, then either a one-letter code (n, r, t), the
character itself (backslash, backtick), or the two-character string
backslash-x followed by two lowercase hex digits; every other byte is
appended verbatim. -/
def Error.appendChar (c : Nat) : List Nat :=
  let uc := c % 256
  if uc < 0x20 || 0x80 ≤ uc || uc == 0x60 || uc == 0x5c then
    [0x5c] ++
      (if uc == 10 then [110]
       else if uc == 13 then [114]
       else if uc == 9 then [116]
       else if uc == 0x5c then [0x5c]
       else if uc == 0x60 then [0x60]
       else [0x5c, 120, hexDigit (uc / 16), hexDigit (uc % 16)])
  else [uc]

/-- `PyError` (utils/exceptions.cc): a captured external error — the
`(exc_type, exc_value, exc_traceback)` triple fetched from the ambient
state by the constructor.  The fields are `mutable` in the source so
that `to_python() const` can null them out. -/
structure PyError where
  exc_type : PyObj
  exc_value : PyObj
  exc_traceback : PyObj
deriving DecidableEq, Repr

/-- `PyError::is_keyboard_interrupt()`: true iff the captured type
handle is `PyExc_KeyboardInterrupt`. -/
def PyError.is_keyboard_interrupt (p : PyError) : Bool :=
  p.exc_type == PyExc_KeyboardInterrupt

/-- `PyError::is_assertion_error()`: true iff the captured type handle
is `PyExc_AssertionError`. -/
def PyError.is_assertion_error (p : PyError) : Bool :=
  p.exc_type == PyExc_AssertionError

/-- The `PyError()` constructor: `PyErr_Fetch` moves the ambient pending
triple into the new object (clearing the ambient state), then, if the
captured error is a keyboard interrupt, the progress manager's
`set_status_cancelled()` is invoked.  Returns the constructed object,
the ambient state after construction, and the progress-cancelled flag
after construction. -/
def PyError.construct (amb : PyState) (cancelled : Bool) :
    PyError × PyState × Bool :=
  let fetched := PyErr_Fetch amb
  let p : PyError := ⟨fetched.1.1, fetched.1.2.1, fetched.1.2.2⟩
  let cancelled' :=
    if p.is_keyboard_interrupt then set_status_cancelled cancelled
    else cancelled
  (p, fetched.2, cancelled')

/-- `PyError::to_python()`: `PyErr_Restore` reinstalls the captured
triple as the ambient pending error, and the object's own handles are
set to NULL.  Returns the new ambient state and the object's new
field values. -/
def PyError.to_python (p : PyError) (amb : PyState) : PyState × PyError :=
  (PyErr_Restore p.exc_type p.exc_value p.exc_traceback amb,
   ⟨PyObj.null, PyObj.null, PyObj.null⟩)

/-- `Warning` (utils/exceptions.cc) is an `Error` subclass; it adds no
fields. -/
structure Warning where
  toError : Error
deriving Repr

/-- The ambient warning channel `PyErr_WarnEx` (spec section 6): given
the warning class, the message and the stack level, it returns the C
`int` result (nonzero when the ambient policy escalated the warning to
an error) and the ambient error state after the call. -/
def WarnChannel : Type :=
  PyObj → List Nat → Nat → PyState → Int × PyState

/-- Outcome of `Warning::emit()`: either a normal return or a thrown
`PyError`; each carries the ambient state and progress-cancelled flag
at that point. -/
inductive EmitOutcome where
  | normal (amb : PyState) (cancelled : Bool)
  | raised (p : PyError) (amb : PyState) (cancelled : Bool)
deriving DecidableEq, Repr

/-- `Warning::emit()`: renders the message (`error.str()` is outside any
try block, so a rendering failure propagates as-is — the `Except.error`
case), hands `(pycls_, message, 1)` to `PyErr_WarnEx`, and when the
returned code is nonzero throws `PyError()` (which captures the pending
error the channel just installed); on a zero return it returns
normally. -/
def Warning.emit (w : Warning) (ch : WarnChannel) (amb : PyState)
    (cancelled : Bool) : Except (List Nat) EmitOutcome :=
  match w.toError.msgResult with
  | Except.error ex => Except.error ex
  | Except.ok errstr =>
    let r := ch w.toError.pycls_ errstr 1 amb
    if r.1 ≠ 0 then
      let pc := PyError.construct r.2 cancelled
      Except.ok (EmitOutcome.raised pc.1 pc.2.1 pc.2.2)
    else
      Except.ok (EmitOutcome.normal r.2 cancelled)

/-- `HidePythonError` (utils/exceptions.cc): the scoped error
suppression guard; holds the triple saved by the constructor. -/
structure HidePythonError where
  ptype_ : PyObj
  pvalue_ : PyObj
  ptraceback_ : PyObj
deriving DecidableEq, Repr

/-- The `HidePythonError()` constructor: when an error is pending it is
fetched into the guard (clearing the ambient state); otherwise the
saved handles are NULL and the ambient state is untouched.  Returns the
guard and the ambient state after construction. -/
def HidePythonError.construct (amb : PyState) : HidePythonError × PyState :=
  if PyErr_Occurred amb then
    let fetched := PyErr_Fetch amb
    (⟨fetched.1.1, fetched.1.2.1, fetched.1.2.2⟩, fetched.2)
  else
    (⟨PyObj.null, PyObj.null, PyObj.null⟩, amb)

/-- The `~HidePythonError()` destructor: when the saved type handle is
non-NULL the saved triple is restored over whatever is pending;
otherwise nothing is done. -/
def HidePythonError.destruct (h : HidePythonError) (amb : PyState) :
    PyState :=
  if h.ptype_ != PyObj.null then
    PyErr_Restore h.ptype_ h.pvalue_ h.ptraceback_ amb
  else amb

/-- `is_string_empty` (utils/exceptions.cc): a NULL C string, or one
whose characters are all blanks, tabs, newlines or carriage returns, is
considered empty. -/
def is_string_empty (msg : Option (List Nat)) : Bool :=
  match msg with
  | none => true
  | some s => s.all (fun c => c == 32 || c == 9 || c == 10 || c == 13)

/-- The byte string "unknown error". -/
def unknown_error_msg : List Nat :=
  [117, 110, 107, 110, 111, 119, 110, 32, 101, 114, 114, 111, 114]

/-- The argument of `exception_to_python`: a `const std::exception&`
that is dynamically either a datatable `Error`, a `PyError` (an `Error`
subclass with overriding virtual `to_python`), or a foreign exception
carrying only its `what()` message (possibly NULL). -/
inductive DtException where
  | dtError (e : Error)
  | dtPyError (p : PyError)
  | foreign (what : Option (List Nat))

/-- Modelled from the spec: `wassert` (utils/assert.h is not among the
sources) is a debug-build-only assertion; spec section 4.1 says the
quiescence precondition "is asserted against in debug builds only".  We
model it as recording whether the checked condition held, so that a
violation is detectable. -/
def wassert_check (cond : Bool) : Bool := cond

/-- `exception_to_python` (utils/exceptions.cc): asserts that
`dt::num_threads_in_team() == 0` (modelled by the `nthreads` argument),
then dispatches — a datatable `Error` is converted through its virtual
`to_python()`; a foreign exception installs `PyExc_Exception` with the
`what()` message (or "unknown error" when that is empty), but only when
no error is already pending.  Returns the `wassert` check result and
the ambient state afterwards. -/
def exception_to_python (nthreads : Nat) (exc : DtException)
    (amb : PyState) : Bool × PyState :=
  let assertOk := wassert_check (nthreads == 0)
  let amb' :=
    match exc with
    | DtException.dtError e => e.to_python
    | DtException.dtPyError p => (p.to_python amb).1
    | DtException.foreign what =>
      if PyErr_Occurred amb then amb
      else if is_string_empty what then
        PyErr_SetString PyExc_Exception unknown_error_msg
      else
        PyErr_SetString PyExc_Exception (what.getD [])
  (assertOk, amb')

/-- `thread_task` (parallel/thread_job.h): a unit of work with a
virtual `execute`.  We model a task by an identifier and its behaviour:
`raises = some e` means `execute` raises error `e`; `raises = none`
means it completes, which we observe by appending the task id to an
execution trace. -/
structure ThreadTask where
  tid : Nat
  raises : Option Nat
deriving DecidableEq, Repr

/-- `thread_task::execute`: either raises or records the task as
executed at the end of the trace. -/
def ThreadTask.execute (t : ThreadTask) (trace : List Nat) :
    Except Nat (List Nat) :=
  match t.raises with
  | some e => Except.error e
  | none => Except.ok (trace ++ [t.tid])

/-- `ThreadJob` (parallel/thread_job.h): a pull-only work source over an
internal state `σ`; `get_next_task` takes the caller's thread index and
returns the next task (or none) together with the updated internal
state. -/
structure ThreadJob (σ : Type) where
  get_next_task : Nat → σ → Option ThreadTask × σ

/-- `ThreadJob::execute_in_current_thread` (parallel/thread_job.cc):
repeatedly pulls a task for the calling thread's own worker index `ith`
(`dt::this_thread_index()` in the source, here a parameter modelling
that external accessor) and executes it, until `get_next_task` returns
null.  There is no catch anywhere in the loop, so a raised error ends
the run with `Except.error`.  `fuel` bounds the number of pulls in the
model; `none` means the loop did not finish within `fuel` pulls. -/
def ThreadJob.execute_in_current_thread {σ : Type} (job : ThreadJob σ)
    (ith : Nat) (fuel : Nat) (js : σ) (trace : List Nat) :
    Option (Except Nat (σ × List Nat)) :=
  match fuel with
  | 0 => none
  | fuel' + 1 =>
    match job.get_next_task ith js with
    | (none, js') => some (Except.ok (js', trace))
    | (some t, js') =>
      match t.execute trace with
      | Except.error e => some (Except.error e)
      | Except.ok trace' =>
        job.execute_in_current_thread ith fuel' js' trace'

/-- The per-byte escaping that spec section 4.1 describes, written from
the amended claim's words: bytes in the printable range 0x20–0x7f other
than backtick and backslash are kept verbatim; newline, carriage
return, tab, backslash and backtick get their two-character escapes;
every other byte becomes two backslashes, an x, and two lowercase hex
digits.  Used only to compare against `Error.appendChar`. -/
def charEscapeAmended (c : Nat) : List Nat :=
  if 0x20 ≤ c ∧ c < 0x80 ∧ c ≠ 0x60 ∧ c ≠ 0x5c then [c]
  else if c = 10 then [0x5c, 110]
  else if c = 13 then [0x5c, 114]
  else if c = 9 then [0x5c, 116]
  else if c = 0x5c then [0x5c, 0x5c]
  else if c = 0x60 then [0x5c, 0x60]
  else [0x5c, 0x5c, 120, hexDigit (c / 16), hexDigit (c % 16)]

/-- A concrete two-task job over internal state `Nat`, used to
instantiate the `execute_in_current_thread` theorem on a closed
input. -/
def sampleJob : ThreadJob Nat :=
  ⟨fun _ s => (if s < 2 then some ⟨s + 5, none⟩ else none, s + 1)⟩

/-- Bulk escaping is the identity when the string has no backtick and
no backslash: the second loop of `escape_backticks` never changes such
a string. -/
theorem escapeEach_of_no_offending (s : List Nat)
    (h : ∀ c ∈ s, isOffending c = false) : escapeEach s = s := by
  induction s with
  | nil => rfl
  | cons c rest ih =>
    have hc : isOffending c = false := h c (List.mem_cons_self c rest)
    have hrest : ∀ x ∈ rest, isOffending x = false :=
      fun x hx => h x (List.mem_cons_of_mem c hx)
    simp [escapeEach, hc, ih hrest]

set_option maxRecDepth 8192

/-- Claim C1: constructing a `PyError` (which fetches and clears the
ambient pending-error state) and then restoring it with
`PyError::to_python` leaves the ambient state exactly as it was before
the capture — for any starting state, including the empty one — and the
`PyError` holds NULL type/value/traceback handles after the restore. -/
theorem C1_capture_restore_roundtrip (amb : PyState) (cancelled : Bool) :
    ((PyError.construct amb cancelled).1.to_python
        (PyError.construct amb cancelled).2.1).1 = amb ∧
    ((PyError.construct amb cancelled).1.to_python
        (PyError.construct amb cancelled).2.1).2 =
      ⟨PyObj.null, PyObj.null, PyObj.null⟩ := by
  obtain ⟨t, v, tb⟩ := amb
  exact ⟨rfl, rfl⟩

/-- Claim C2: if ambient error state `A` is pending when a
`HidePythonError` guard is constructed, and a different state `B` is
pending when the guard is destroyed, then after destruction the ambient
state equals `A` — the later state `B` is discarded by the restore. -/
theorem C2_guard_restores_saved_over_later (A B : PyState)
    (hA : PyErr_Occurred A = true) :
    HidePythonError.destruct (HidePythonError.construct A).1 B = A ∧
    (B ≠ A → HidePythonError.destruct (HidePythonError.construct A).1 B ≠ B) := by
  have htype : A.ptype ≠ PyObj.null := by
    simpa [PyErr_Occurred] using hA
  have hmain : HidePythonError.destruct (HidePythonError.construct A).1 B = A := by
    obtain ⟨t, v, tb⟩ := A
    simp only [ne_eq] at htype
    simp [HidePythonError.construct, HidePythonError.destruct, PyErr_Occurred,
      PyErr_Fetch, PyErr_Restore, htype]
  exact ⟨hmain, fun hBA hres => hBA (hmain ▸ hres.symm ▸ rfl)⟩

/-- Witness for C2 at a concrete pending state and a concrete later
state. -/
theorem C2_guard_restores_saved_over_later_witness :
    HidePythonError.destruct
      (HidePythonError.construct ⟨PyExc_Exception, PyObj.obj 1, PyObj.null⟩).1
      ⟨PyExc_RuntimeError, PyObj.null, PyObj.null⟩ =
      ⟨PyExc_Exception, PyObj.obj 1, PyObj.null⟩ :=
  (C2_guard_restores_saved_over_later
    ⟨PyExc_Exception, PyObj.obj 1, PyObj.null⟩
    ⟨PyExc_RuntimeError, PyObj.null, PyObj.null⟩ (by decide)).1

/-- Claim C3: a captured `PyError` answers `is_keyboard_interrupt`
true iff its captured type handle is `PyExc_KeyboardInterrupt`;
capturing such a signal sets the progress manager's cancelled status
(and capturing anything else leaves it unchanged); the constructor
clears the ambient state and installs nothing in the error sink; and
the base `Error` always answers false. -/
theorem C3_cancellation_classification (amb : PyState) (cancelled : Bool) :
    ((PyError.construct amb cancelled).1.is_keyboard_interrupt = true ↔
       amb.ptype = PyExc_KeyboardInterrupt) ∧
    (amb.ptype = PyExc_KeyboardInterrupt →
       (PyError.construct amb cancelled).2.2 = true) ∧
    (amb.ptype ≠ PyExc_KeyboardInterrupt →
       (PyError.construct amb cancelled).2.2 = cancelled) ∧
    (PyError.construct amb cancelled).2.1 = PyState.empty ∧
    (∀ e : Error, e.is_keyboard_interrupt = false) := by
  refine ⟨?_, ?_, ?_, rfl, fun e => rfl⟩
  · simp [PyError.construct, PyError.is_keyboard_interrupt, PyErr_Fetch]
  · intro h
    simp [PyError.construct, PyError.is_keyboard_interrupt, PyErr_Fetch, h,
      set_status_cancelled]
  · intro h
    simp [PyError.construct, PyError.is_keyboard_interrupt, PyErr_Fetch, h]

/-- Witness for C3: capturing a pending `KeyboardInterrupt` marks the
progress status cancelled. -/
theorem C3_cancellation_classification_witness :
    (PyError.construct ⟨PyExc_KeyboardInterrupt, PyObj.obj 7, PyObj.null⟩
        false).2.2 = true :=
  (C3_cancellation_classification
    ⟨PyExc_KeyboardInterrupt, PyObj.obj 7, PyObj.null⟩ false).2.1 rfl

/-- Claim C4: `exception_to_python` checks, via the debug-build
assertion `wassert`, that the team size counter is zero at the start of
the conversion: the recorded check fails exactly when the counter is
nonzero, so a violation is detectable in a debug build. -/
theorem C4_quiescence_assert (nthreads : Nat) (exc : DtException)
    (amb : PyState) :
    (exception_to_python nthreads exc amb).1 = false ↔ nthreads ≠ 0 := by
  have h : (exception_to_python nthreads exc amb).1 =
      wassert_check (nthreads == 0) := rfl
  rw [h]
  simp [wassert_check]

/-- Witness for C4: with one worker still active the check fails; with
a quiescent team it passes. -/
theorem C4_quiescence_assert_witness :
    (exception_to_python 1 (DtException.foreign none) PyState.empty).1 = false ∧
    (exception_to_python 0 (DtException.foreign none) PyState.empty).1 = true :=
  ⟨(C4_quiescence_assert 1 (DtException.foreign none) PyState.empty).mpr
      (by decide),
   by decide⟩

/-- Claim C5 counterexample: `escape_backticks` does not escape bytes
outside the printable-ASCII range — a lone newline passes through
unchanged, while the character-level rule (as implemented by
`Error.appendChar`) renders it as backslash-n. -/
theorem C5_counterexample :
    escape_backticks [10] = [10] ∧
    Error.appendChar 10 = [0x5c, 110] ∧
    escape_backticks [10] ≠ Error.appendChar 10 := by decide

/-- Claim C5 (amended): `escape_backticks` escapes exactly the backtick
and backslash characters, each by prepending a single backslash, and
leaves every other byte unchanged; in particular a string with no
backtick and no backslash is returned value-equal to the input. -/
theorem C5_escape_backticks_amended (s : List Nat) :
    escape_backticks s = escapeEach s ∧
    ((∀ c ∈ s, isOffending c = false) → escape_backticks s = s) := by
  have hmain : escape_backticks s = escapeEach s := by
    by_cases h : s.countP isOffending = 0
    · have hall : ∀ c ∈ s, isOffending c = false := by
        intro c hc
        have := List.countP_eq_zero.mp h c hc
        simpa using this
      simp [escape_backticks, h, escapeEach_of_no_offending s hall]
    · simp [escape_backticks, h]
  refine ⟨hmain, fun hall => ?_⟩
  rw [hmain]
  exact escapeEach_of_no_offending s hall

/-- Witness for C5 (amended): a string with a newline but no backtick
or backslash is returned unchanged. -/
theorem C5_escape_backticks_amended_witness :
    escape_backticks [97, 10, 98] = [97, 10, 98] :=
  (C5_escape_backticks_amended [97, 10, 98]).2 (by decide)

/-- Claim C6 counterexample: for byte 0x01 the character append
operator emits a doubled backslash before the `x` — five characters in
total — not the claimed single backslash-x escape. -/
theorem C6_counterexample :
    Error.appendChar 1 = [0x5c, 0x5c, 120, 48, 49] ∧
    Error.appendChar 1 ≠ [0x5c, 120, 48, 49] := by decide

/-- Claim C6 (amended): for every byte `c`, the character append
operator emits `c` verbatim when `0x20 ≤ c < 0x80` and `c` is neither
backtick nor backslash; otherwise it emits backslash-n for newline,
backslash-r for carriage return, backslash-t for tab, a doubled
backslash for backslash, backslash-backtick for backtick, and for every
other offending byte two backslashes, an `x`, and two lowercase hex
digits of its value. -/
theorem C6_appendChar_amended (c : Nat) (hc : c < 256) :
    Error.appendChar c = charEscapeAmended c :=
  (by decide :
    ∀ x : Fin 256, Error.appendChar x.val = charEscapeAmended x.val) ⟨c, hc⟩

/-- Witness for C6 (amended) at byte 65. -/
theorem C6_appendChar_amended_witness :
    Error.appendChar 65 = charEscapeAmended 65 :=
  C6_appendChar_amended 65 (by decide)

/-- Claim C7: when rendering the message inside `Error::to_python`
throws, the conversion catches the exception and installs
`PyExc_RuntimeError` with the caught exception's message — the
conversion itself yields a pending error state and never propagates. -/
theorem C7_to_python_downgrades (e : Error) (w : List Nat)
    (h : e.msgResult = Except.error w) :
    e.to_python = PyErr_SetString PyExc_RuntimeError w := by
  simp [Error.to_python, h]

/-- Witness for C7 at a concrete error whose rendering fails. -/
theorem C7_to_python_downgrades_witness :
    Error.to_python ⟨PyExc_Exception, Except.error [120]⟩ =
      PyErr_SetString PyExc_RuntimeError [120] :=
  C7_to_python_downgrades ⟨PyExc_Exception, Except.error [120]⟩ [120] rfl

/-- Claim C8: `Warning::emit` hands `(pycls_, rendered message, 1)` to
the warning channel; exactly when the channel's return code is nonzero,
emit throws a `PyError` that captures the pending error state the
channel left behind; on a zero return emit returns normally without
raising. -/
theorem C8_warning_emit_escalation (w : Warning) (ch : WarnChannel)
    (amb : PyState) (cancelled : Bool) (s : List Nat)
    (h : w.toError.msgResult = Except.ok s) :
    ((ch w.toError.pycls_ s 1 amb).1 ≠ 0 →
       w.emit ch amb cancelled = Except.ok (EmitOutcome.raised
         (PyError.construct (ch w.toError.pycls_ s 1 amb).2 cancelled).1
         (PyError.construct (ch w.toError.pycls_ s 1 amb).2 cancelled).2.1
         (PyError.construct (ch w.toError.pycls_ s 1 amb).2 cancelled).2.2) ∧
       (PyError.construct (ch w.toError.pycls_ s 1 amb).2 cancelled).1 =
         ⟨(ch w.toError.pycls_ s 1 amb).2.ptype,
          (ch w.toError.pycls_ s 1 amb).2.pvalue,
          (ch w.toError.pycls_ s 1 amb).2.ptraceback⟩) ∧
    ((ch w.toError.pycls_ s 1 amb).1 = 0 →
       w.emit ch amb cancelled =
         Except.ok (EmitOutcome.normal (ch w.toError.pycls_ s 1 amb).2 cancelled)) := by
  constructor
  · intro hne
    constructor
    · simp [Warning.emit, h, hne]
    · rfl
  · intro hz
    simp [Warning.emit, h, hz]

/-- Witness for C8: a channel that escalates (returns -1 and installs a
pending error) makes emit throw a `PyError` capturing that state. -/
theorem C8_warning_emit_escalation_witness :
    Warning.emit ⟨⟨PyExc_FutureWarning, Except.ok [104, 105]⟩⟩
      (fun cls msg _ _ => (-1, PyErr_SetString cls msg)) PyState.empty false =
    Except.ok (EmitOutcome.raised
      ⟨PyExc_FutureWarning, PyObj.str [104, 105], PyObj.null⟩
      PyState.empty false) :=
  ((C8_warning_emit_escalation ⟨⟨PyExc_FutureWarning, Except.ok [104, 105]⟩⟩
      (fun cls msg _ _ => (-1, PyErr_SetString cls msg)) PyState.empty false
      [104, 105] rfl).1 (by decide)).1

/-- Claim C9: `ThreadJob::execute_in_current_thread` drives itself with
the calling thread's own worker index: when the pull returns null the
loop stops at once with the work done so far; when the pulled task
raises, the error propagates out of the driver uncaught; when the
pulled task completes, it is recorded in pull order and the loop
continues pulling for the same index. -/
theorem C9_execute_in_current_thread_loop {σ : Type} (job : ThreadJob σ)
    (ith fuel : Nat) (js : σ) (trace : List Nat) :
    (∀ js', job.get_next_task ith js = (none, js') →
       job.execute_in_current_thread ith (fuel + 1) js trace =
         some (Except.ok (js', trace))) ∧
    (∀ t js' e, job.get_next_task ith js = (some t, js') →
       t.raises = some e →
       job.execute_in_current_thread ith (fuel + 1) js trace =
         some (Except.error e)) ∧
    (∀ t js', job.get_next_task ith js = (some t, js') →
       t.raises = none →
       job.execute_in_current_thread ith (fuel + 1) js trace =
         job.execute_in_current_thread ith fuel js' (trace ++ [t.tid])) := by
  refine ⟨?_, ?_, ?_⟩
  · intro js' h
    simp [ThreadJob.execute_in_current_thread, h]
  · intro t js' e h hr
    simp [ThreadJob.execute_in_current_thread, h, ThreadTask.execute, hr]
  · intro t js' h hr
    simp [ThreadJob.execute_in_current_thread, h, ThreadTask.execute, hr]

/-- Witness for C9 on a concrete exhausted job: the first null pull
stops the loop immediately. -/
theorem C9_execute_in_current_thread_loop_witness :
    sampleJob.execute_in_current_thread 0 1 2 [] =
      some (Except.ok (3, [])) :=
  (C9_execute_in_current_thread_loop sampleJob 0 0 2 []).1 3 (by decide)

/-- Claim C10: when no error is pending at construction, the
`HidePythonError` guard captures the empty (all-NULL) triple, leaves
the ambient state untouched, and its destructor performs no restore —
so a state `B` pending at destruction time remains pending. -/
theorem C10_empty_guard_no_restore (amb B : PyState)
    (h : PyErr_Occurred amb = false) :
    (HidePythonError.construct amb).1 =
      ⟨PyObj.null, PyObj.null, PyObj.null⟩ ∧
    (HidePythonError.construct amb).2 = amb ∧
    HidePythonError.destruct (HidePythonError.construct amb).1 B = B := by
  refine ⟨?_, ?_, ?_⟩ <;>
    simp [HidePythonError.construct, HidePythonError.destruct, h]

/-- Witness for C10: with nothing pending at construction, a later
pending state survives the guard's destruction. -/
theorem C10_empty_guard_no_restore_witness :
    HidePythonError.destruct (HidePythonError.construct PyState.empty).1
      ⟨PyExc_RuntimeError, PyObj.null, PyObj.null⟩ =
      ⟨PyExc_RuntimeError, PyObj.null, PyObj.null⟩ :=
  (C10_empty_guard_no_restore PyState.empty
    ⟨PyExc_RuntimeError, PyObj.null, PyObj.null⟩ (by decide)).2.2

end Datatable
